import Mathlib

/-
Verification development for the rosbag_to_dora repository.

The repository has two Python files, `ros2bag_to_dora.py` and
`ros2bag_read.py`.  The bag-locator logic (`parse_ros2_bag` lines 18-41)
is identical in both; `ros2bag_to_dora.py` additionally extracts IMU and
odometry messages and drives a timer-based emission loop
(`DoraBagOperator.on_event`).

Shallow embedding conventions:
  * the filesystem queried through `os.path` is modelled by a structure
    `FS` of boolean predicates and a listing function;
  * Python arbitrary-precision integers are `Int` / `Nat`;
  * Python `time.time()` floats and the frequency arithmetic are modelled
    exactly over `Rat` (the code only compares and subtracts times, so no
    rounding behaviour is relied on by any claim);
  * scalar numeric payload fields (Python floats copied verbatim during
    reshaping, never computed with) are an abstract type parameter `α`;
  * calls into the external `rosbags` library and `deserialize_cdr` are
    modelled by their outcome: a `Bag` carries the result of opening and
    enumerating it, each raw message carries the result of deserializing
    its payload (`Except` for a possible raised exception);
  * Python exceptions are `Except String`, a `try/except` block is a
    `match` on that result; a function that returns `None` on failure
    returns `Option`;
  * `print` calls relevant to the claims are collected in a `logs` list.
-/

attribute [local semireducible] Rat.add Rat.sub Rat.mul Rat.inv

namespace RosbagToDora

/-! ## Path helpers (`os.path.dirname`, `str.endswith`) -/

/-- Python `posixpath.dirname`: take the prefix of the string up to and
including the last slash, then, when that prefix is nonempty and not made
of slashes only, strip its trailing slashes.  In particular
`dirname "foo/bar.db3" = "foo"` and `dirname "bar.db3" = ""`. -/
def dirnameChars (cs : List Char) : List Char :=
  let head := (cs.reverse.dropWhile (fun c => c != '/')).reverse
  if !head.isEmpty && !head.all (fun c => c == '/') then
    (head.reverse.dropWhile (fun c => c == '/')).reverse
  else head

/-- String version of `dirnameChars`, modelling `os.path.dirname`. -/
def dirname (p : String) : String :=
  String.mk (dirnameChars p.toList)

/-- Python `s.endswith(pat)`. -/
def strEndsWith (s pat : String) : Bool :=
  pat.toList.isSuffixOf s.toList

/-! ## Filesystem model and the bag locator -/

/-- The filesystem as observed through the `os` calls used by the code:
`os.path.exists`, `os.path.isfile`, `os.path.isdir`, `os.listdir`. -/
structure FS where
  pathExists : String → Bool
  isfile : String → Bool
  isdir : String → Bool
  listdir : String → List String

/-- Outcome of the bag-locating prologue of `parse_ros2_bag`
(lines 18-41 of `ros2bag_to_dora.py`, lines 15-38 of `ros2bag_read.py`).
Each failure constructor corresponds to one `print`+`return` site. -/
inductive LocateResult where
  /-- "Error: Path '...' does not exist." -/
  | notFound : LocateResult
  /-- "Error: No '.db3' file found in '...'." -/
  | noDataFile (dir : String) : LocateResult
  /-- "Error: '...' is not a valid ROS2 bag directory or a .db3 file." -/
  | invalidPath (orig : String) : LocateResult
  /-- "Error: '...' is not a valid ROS2 bag directory." (the final
  `os.path.isdir` re-check on the possibly rewritten path) -/
  | notValidDir (dir : String) : LocateResult
  /-- locating succeeded; `warned` records whether the '.db3'-file
  warning was printed -/
  | ok (dir : String) (warned : Bool) : LocateResult
deriving DecidableEq

/-- The locator prologue of `parse_ros2_bag`, lines 18-41:
existence check, '.db3'-file rewrite to `os.path.dirname`, directory
scan for '.db3' entries, and the final `os.path.isdir` re-check. -/
def locateBag (fs : FS) (bagPath : String) : LocateResult :=
  if fs.pathExists bagPath = false then
    .notFound
  else if fs.isfile bagPath = true ∧ strEndsWith bagPath ".db3" = true then
    -- bag_path = os.path.dirname(bag_path); warning printed
    let newPath := dirname bagPath
    if fs.isdir newPath = true then .ok newPath true else .notValidDir newPath
  else if fs.isdir bagPath = true then
    if ((fs.listdir bagPath).filter (fun f => strEndsWith f ".db3")).isEmpty then
      .noDataFile bagPath
    else
      -- the final isdir re-check is a tautology on this branch but is
      -- kept to mirror line 39
      if fs.isdir bagPath = true then .ok bagPath false else .notValidDir bagPath
  else
    .invalidPath bagPath

/-! ## Message payloads and reshaped records -/

/-- An x/y/z/w quaternion field group of a ROS message. -/
structure Quat (α : Type) where
  x : α
  y : α
  z : α
  w : α
deriving DecidableEq

/-- An x/y/z vector field group of a ROS message. -/
structure Vec3 (α : Type) where
  x : α
  y : α
  z : α
deriving DecidableEq

/-- The fields of a deserialized `sensor_msgs/Imu` message that the code
reads. -/
structure ImuMsg (α : Type) where
  orien : Quat α
  angular_velocity : Vec3 α
  linear_acceleration : Vec3 α
deriving DecidableEq

/-- `msg.pose.pose` of an odometry message. -/
structure Pose (α : Type) where
  position : Vec3 α
  orien : Quat α
deriving DecidableEq

/-- `msg.pose` of an odometry message: nested pose plus covariance. -/
structure PoseWithCovariance (α : Type) where
  pose : Pose α
  covariance : List α
deriving DecidableEq

/-- `msg.twist.twist` of an odometry message. -/
structure Twist (α : Type) where
  linear : Vec3 α
  angular : Vec3 α
deriving DecidableEq

/-- `msg.twist` of an odometry message: nested twist plus covariance. -/
structure TwistWithCovariance (α : Type) where
  twist : Twist α
  covariance : List α
deriving DecidableEq

/-- The fields of a deserialized `nav_msgs/Odometry` message that the
code reads. -/
structure OdomMsg (α : Type) where
  pose : PoseWithCovariance α
  twist : TwistWithCovariance α
deriving DecidableEq

/-- The plain dict appended to `extracted_data["/Imu"]`
(lines 97-115): original timestamp plus the message fields copied
one by one. -/
structure ImuRecord (α : Type) where
  timestamp : Int
  orien : Quat α
  angular_velocity : Vec3 α
  linear_acceleration : Vec3 α
deriving DecidableEq

/-- The plain dict appended to `extracted_data["/odom"]`
(lines 118-151): original timestamp plus pose and twist with their
covariance lists. -/
structure OdomRecord (α : Type) where
  timestamp : Int
  pose : PoseWithCovariance α
  twist : TwistWithCovariance α
deriving DecidableEq

/-- Reshaping of an IMU message (lines 97-115): each field of the dict is
the corresponding attribute of the message, copied verbatim. -/
def reshapeImu (timestamp : Int) (msg : ImuMsg α) : ImuRecord α :=
  { timestamp := timestamp
    orien :=
      { x := msg.orien.x, y := msg.orien.y, z := msg.orien.z, w := msg.orien.w }
    angular_velocity :=
      { x := msg.angular_velocity.x, y := msg.angular_velocity.y
        z := msg.angular_velocity.z }
    linear_acceleration :=
      { x := msg.linear_acceleration.x, y := msg.linear_acceleration.y
        z := msg.linear_acceleration.z } }

/-- Reshaping of an odometry message (lines 118-151): nested position,
quaternion and twist fields copied verbatim, `list(covariance)` is the
identity on our `List` model. -/
def reshapeOdom (timestamp : Int) (msg : OdomMsg α) : OdomRecord α :=
  { timestamp := timestamp
    pose :=
      { pose :=
          { position :=
              { x := msg.pose.pose.position.x, y := msg.pose.pose.position.y
                z := msg.pose.pose.position.z }
            orien :=
              { x := msg.pose.pose.orien.x, y := msg.pose.pose.orien.y
                z := msg.pose.pose.orien.z, w := msg.pose.pose.orien.w } }
        covariance := msg.pose.covariance }
    twist :=
      { twist :=
          { linear :=
              { x := msg.twist.twist.linear.x, y := msg.twist.twist.linear.y
                z := msg.twist.twist.linear.z }
            angular :=
              { x := msg.twist.twist.angular.x, y := msg.twist.twist.angular.y
                z := msg.twist.twist.angular.z } }
        covariance := msg.twist.covariance } }

/-! ## The extraction scan of `parse_ros2_bag` -/

/-- What `deserialize_cdr(rawdata, connection.msgtype)` can produce for
the message types this code touches. -/
inductive MsgBody (α : Type) where
  | imu (m : ImuMsg α) : MsgBody α
  | odom (m : OdomMsg α) : MsgBody α

/-- One item of `reader.messages()`: topic, timestamp, and the outcome
of deserializing its raw payload (`.error` models `deserialize_cdr`
raising). -/
structure RawMessage (α : Type) where
  topic : String
  timestamp : Int
  deser : Except String (MsgBody α)

/-- The two accumulator lists `extracted_data["/Imu"]` and
`extracted_data["/odom"]` (lines 90-93). -/
structure ExtractedData (α : Type) where
  imu : List (ImuRecord α)
  odom : List (OdomRecord α)
deriving DecidableEq

/-- The message loop of lines 94-151.  A deserialization error, or a
payload without the attributes the reshaping reads (an `AttributeError`
in Python), raises out of the loop: there is no per-message handler, so
the `Except` propagates.  Messages on unrecognized topics are skipped. -/
def extractLoop (msgs : List (RawMessage α)) (acc : ExtractedData α) :
    Except String (ExtractedData α) :=
  match msgs with
  | [] => .ok acc
  | m :: rest =>
    if m.topic = "/Imu" then
      match m.deser with
      | .ok (.imu b) =>
        extractLoop rest { acc with imu := acc.imu ++ [reshapeImu m.timestamp b] }
      | .ok (.odom _) => .error "AttributeError"
      | .error e => .error e
    else if m.topic = "/odom" then
      match m.deser with
      | .ok (.odom b) =>
        extractLoop rest { acc with odom := acc.odom ++ [reshapeOdom m.timestamp b] }
      | .ok (.imu _) => .error "AttributeError"
      | .error e => .error e
    else
      extractLoop rest acc

/-- The external reader: opening `Reader(bag_path)`, walking the
directory, reading the metadata and enumerating the stored messages may
all raise; `openResult` is the combined outcome, giving the message list
in storage order when everything up to the loop succeeds. -/
structure Bag (α : Type) where
  openResult : Except String (List (RawMessage α))

/-- The body of the `try` block of `parse_ros2_bag` (lines 45-154),
reduced to what the claims observe: enumerate the messages and run the
extraction loop starting from the empty accumulators. -/
def parseBody (bag : Bag α) : Except String (ExtractedData α) :=
  match bag.openResult with
  | .error e => .error e
  | .ok msgs => extractLoop msgs { imu := [], odom := [] }

/-- `parse_ros2_bag` of `ros2bag_to_dora.py`: locator prologue, then the
`try/except` around the reader block.  Every `print`+`return` failure
path of the prologue and the `except Exception` handler (lines 156-158)
return `None`. -/
def parse_ros2_bag (fs : FS) (bagPath : String) (bag : Bag α) :
    Option (ExtractedData α) :=
  match locateBag fs bagPath with
  | .ok _ _ =>
    match parseBody bag with
    | .ok d => some d
    | .error _ => none
  | _ => none

/-- Whether `deserialize_cdr` raised on this message. -/
def isDeserError (m : RawMessage α) : Bool :=
  match m.deser with
  | .error _ => true
  | .ok _ => false

/-- The odometry record a message would contribute, when its payload
deserializes to an odometry body. -/
def odomRecordOf (m : RawMessage α) : Option (OdomRecord α) :=
  match m.deser with
  | .ok (.odom b) => some (reshapeOdom m.timestamp b)
  | _ => none

/-- Specification-side description of the extractor's odometry output
(§4.3, §8 of the spec): the reshaped records of the `/odom`-topic
messages, in storage order. -/
def specOdomSequence (msgs : List (RawMessage α)) : List (OdomRecord α) :=
  msgs.filterMap (fun m => if m.topic = "/odom" then odomRecordOf m else none)

/-! ## Metadata timestamps -/

/-- The metadata fields used by the start/end timestamp computation
(lines 61-66 of `ros2bag_to_dora.py`, lines 58-63 of `ros2bag_read.py`).
Both are Python arbitrary-precision integers. -/
structure BagMetadata where
  duration_nanoseconds : Int
  starting_time_nanoseconds_since_epoch : Int
deriving DecidableEq

/-- Line 66: `end_time_ns = start_time_ns + duration_ns`. -/
def end_time_ns (meta : BagMetadata) : Int :=
  meta.starting_time_nanoseconds_since_epoch + meta.duration_nanoseconds

/-! ## The `DoraBagOperator` emission loop -/

/-- The status values returned by `on_event`. -/
inductive DoraStatus where
  | CONTINUE : DoraStatus
  | STOP : DoraStatus
deriving DecidableEq

/-- The payload handed to `send_output`: `json.dumps(record).encode()`.
JSON encoding is delegated to the standard library and is injective on
these records, so the payload is modelled by the record itself. -/
inductive Payload (α : Type) where
  | imuJson (r : ImuRecord α) : Payload α
  | odomJson (r : OdomRecord α) : Payload α
deriving DecidableEq

/-- One `send_output(tag, data, metadata)` call.  `μ` is the type of the
opaque `dora_event["metadata"]` value passed through. -/
structure Output (α μ : Type) where
  tag : String
  payload : Payload α
  metadata : μ
deriving DecidableEq

/-- The mutable fields of `DoraBagOperator` (lines 161-169).
`all_imu`/`all_odom` are `self.all_data["/Imu"]` and
`self.all_data["/odom"]`. -/
structure OpState (α : Type) where
  all_imu : List (ImuRecord α)
  all_odom : List (OdomRecord α)
  imu_index : Nat
  odom_index : Nat
  last_send_time : Rat
  send_frequency : Rat
deriving DecidableEq

/-- Everything one `on_event` call produces: the updated operator state,
the `send_output` calls in order, the `print`ed lines, and the returned
status. -/
structure StepResult (α μ : Type) where
  state : OpState α
  outputs : List (Output α μ)
  logs : List String
  status : DoraStatus
deriving DecidableEq

/-- The "Send IMU data" block (lines 182-191): when `imu_index` is still
inside the IMU list, send that record as `"imu_json"` and advance the
index. -/
def sendImu (s : OpState α) (m : μ) : OpState α × List (Output α μ) :=
  if h : s.imu_index < s.all_imu.length then
    ({ s with imu_index := s.imu_index + 1 },
     [{ tag := "imu_json"
        payload := .imuJson (s.all_imu.get ⟨s.imu_index, h⟩)
        metadata := m }])
  else (s, [])

/-- The "Send Odom data" block (lines 193-202). -/
def sendOdom (s : OpState α) (m : μ) : OpState α × List (Output α μ) :=
  if h : s.odom_index < s.all_odom.length then
    ({ s with odom_index := s.odom_index + 1 },
     [{ tag := "odom_json"
        payload := .odomJson (s.all_odom.get ⟨s.odom_index, h⟩)
        metadata := m }])
  else (s, [])

/-- `DoraBagOperator.on_event` (lines 171-215).  `eventType` is
`dora_event["type"]`, `m` is `dora_event["metadata"]`, `now` is the
`time.time()` reading taken on a `TIMER_TICK`.  Python raises on
`1.0 / 0`; the model's total `Rat` division differs only at
`send_frequency = 0`, which no run of the program produces (the CLI
frequency is a positive integer defaulting to 10). -/
def on_event (s : OpState α) (eventType : String) (m : μ) (now : Rat) :
    StepResult α μ :=
  if eventType = "INPUT" then
    { state := s, outputs := [], logs := [], status := .CONTINUE }
  else if eventType = "TIMER_TICK" then
    if now - s.last_send_time ≥ 1 / s.send_frequency then
      let p1 := sendImu s m
      let p2 := sendOdom p1.1 m
      let s3 : OpState α := { p2.1 with last_send_time := now }
      if s3.all_imu.length ≤ s3.imu_index ∧ s3.all_odom.length ≤ s3.odom_index then
        { state := s3, outputs := p1.2 ++ p2.2
          logs := ["Finished sending all IMU and Odom data."], status := .STOP }
      else
        { state := s3, outputs := p1.2 ++ p2.2, logs := [], status := .CONTINUE }
    else
      { state := s, outputs := [], logs := [], status := .CONTINUE }
  else if eventType = "STOP" then
    { state := s, outputs := [], logs := ["received stop"], status := .CONTINUE }
  else
    { state := s
      outputs := []
      logs := ["received unexpected event: " ++ eventType]
      status := .CONTINUE }

/-- Drive a sequence of `TIMER_TICK` events through `on_event` at the
given clock readings, collecting every output and the status returned on
each tick (the driver in `main` would stop at the first `STOP`; feeding
the remaining ticks anyway observes what `on_event` itself does). -/
def runTicks (s : OpState α) (times : List Rat) :
    OpState α × List (Output α Unit) × List DoraStatus :=
  match times with
  | [] => (s, [], [])
  | t :: rest =>
    let r := on_event s "TIMER_TICK" () t
    let rec' := runTicks r.state rest
    (rec'.1, r.outputs ++ rec'.2.1, r.status :: rec'.2.2)

/-! ## Concrete instances used by counterexamples and witnesses -/

/-- A concrete quaternion value (scalar payloads instantiated at `Int`). -/
def q1 : Quat Int := { x := 0, y := 0, z := 0, w := 1 }

/-- A concrete vector value. -/
def v1 : Vec3 Int := { x := 1, y := 2, z := 3 }

/-- A concrete IMU message body. -/
def imuBody (k : Int) : ImuMsg Int :=
  { orien := q1, angular_velocity := v1
    linear_acceleration := { x := k, y := 0, z := 0 } }

/-- A concrete odometry message body. -/
def odomBody (k : Int) : OdomMsg Int :=
  { pose := { pose := { position := { x := k, y := 0, z := 0 }, orien := q1 }
              covariance := [0, 0] }
    twist := { twist := { linear := v1, angular := v1 }, covariance := [1] } }

/-- Operator state for the spec's emitter scenario: three IMU records,
one odometry record, frequency 10 Hz, clock starting at 0. -/
def scenarioState : OpState Int :=
  { all_imu := [reshapeImu 1 (imuBody 1), reshapeImu 2 (imuBody 2),
                reshapeImu 3 (imuBody 3)]
    all_odom := [reshapeOdom 1 (odomBody 1)]
    imu_index := 0
    odom_index := 0
    last_send_time := 0
    send_frequency := 10 }

/-- Filesystem from C10's scenario: the single existing path is the bare
file name `bar.db3` in the current working directory. -/
def fsBare : FS :=
  { pathExists := fun p => p == "bar.db3"
    isfile := fun p => p == "bar.db3"
    isdir := fun _ => false
    listdir := fun _ => [] }

/-- Filesystem with the bag file addressed as `foo/bar.db3` inside the
directory `foo`. -/
def fsFoo : FS :=
  { pathExists := fun p => p == "foo/bar.db3" || p == "foo"
    isfile := fun p => p == "foo/bar.db3"
    isdir := fun p => p == "foo"
    listdir := fun p => if p == "foo" then ["bar.db3"] else [] }

/-- Filesystem where the path `bag` is a bag directory holding a data
file. -/
def fsDir : FS :=
  { pathExists := fun p => p == "bag"
    isfile := fun _ => false
    isdir := fun p => p == "bag"
    listdir := fun p => if p == "bag" then ["data.db3", "metadata.yaml"] else [] }

/-- A bag whose opening raises. -/
def failingBag : Bag Int :=
  { openResult := .error "database disk image is malformed" }

/-- Message stream with one corrupt `/Imu` message followed by a healthy
`/odom` message. -/
def corruptMsgs : List (RawMessage Int) :=
  [ { topic := "/Imu", timestamp := 1, deser := .error "payload too short" }
  , { topic := "/odom", timestamp := 2, deser := .ok (.odom (odomBody 2)) } ]

/-- A bag holding `corruptMsgs`. -/
def corruptBag : Bag Int := { openResult := .ok corruptMsgs }

/-- Message stream with two `/odom` messages around one message on an
unrecognized topic (whose payload is never deserialized). -/
def odomMsgs : List (RawMessage Int) :=
  [ { topic := "/odom", timestamp := 10, deser := .ok (.odom (odomBody 1)) }
  , { topic := "/tf", timestamp := 11, deser := .error "never examined" }
  , { topic := "/odom", timestamp := 12, deser := .ok (.odom (odomBody 2)) } ]

/-- A bag holding `odomMsgs`. -/
def odomBag : Bag Int := { openResult := .ok odomMsgs }

/-- Operator state with one pending IMU record, for observing events
after a "STOP" signal. -/
def pendingState : OpState Int :=
  { all_imu := [reshapeImu 1 (imuBody 1)]
    all_odom := []
    imu_index := 0
    odom_index := 0
    last_send_time := 0
    send_frequency := 10 }

/-- Operator state for witnesses about early ticks. -/
def idleState : OpState Int :=
  { all_imu := [reshapeImu 1 (imuBody 1)]
    all_odom := [reshapeOdom 1 (odomBody 1)]
    imu_index := 0
    odom_index := 0
    last_send_time := 0
    send_frequency := 10 }

/-! ## Helper lemmas -/

/-- `dirname` of a path without a slash is the empty string (as with
Python's `os.path.dirname` on a bare file name). -/
lemma dirname_of_no_slash (p : String) (h : p.toList.all (fun c => c != '/') = true) :
    dirname p = "" := by
  unfold dirname dirnameChars
  have hdrop : p.toList.reverse.dropWhile (fun c => c != '/') = [] := by
    rw [List.dropWhile_eq_nil_iff]
    intro x hx
    exact List.all_eq_true.mp h x (List.mem_reverse.mp hx)
  rw [hdrop]
  simp

/-- `sendImu` touches only `imu_index` (raising it by at most one) and
produces at most one output, which is tagged `"imu_json"`. -/
lemma sendImu_spec (s : OpState α) (m : μ) :
    (sendImu s m).1.all_imu = s.all_imu
    ∧ (sendImu s m).1.all_odom = s.all_odom
    ∧ (sendImu s m).1.odom_index = s.odom_index
    ∧ (sendImu s m).1.last_send_time = s.last_send_time
    ∧ s.imu_index ≤ (sendImu s m).1.imu_index
    ∧ (sendImu s m).1.imu_index ≤ s.imu_index + 1
    ∧ ((sendImu s m).2.filter (fun o => o.tag == "imu_json")).length ≤ 1
    ∧ ((sendImu s m).2.filter (fun o => o.tag == "odom_json")).length = 0 := by
  unfold sendImu
  split <;> simp [List.filter]

/-- `sendOdom` touches only `odom_index` (raising it by at most one) and
produces at most one output, which is tagged `"odom_json"`. -/
lemma sendOdom_spec (s : OpState α) (m : μ) :
    (sendOdom s m).1.all_imu = s.all_imu
    ∧ (sendOdom s m).1.all_odom = s.all_odom
    ∧ (sendOdom s m).1.imu_index = s.imu_index
    ∧ (sendOdom s m).1.last_send_time = s.last_send_time
    ∧ s.odom_index ≤ (sendOdom s m).1.odom_index
    ∧ (sendOdom s m).1.odom_index ≤ s.odom_index + 1
    ∧ ((sendOdom s m).2.filter (fun o => o.tag == "odom_json")).length ≤ 1
    ∧ ((sendOdom s m).2.filter (fun o => o.tag == "imu_json")).length = 0 := by
  unfold sendOdom
  split <;> simp [List.filter]

/-- `on_event` on an "INPUT" event is a no-op. -/
lemma input_char (s : OpState α) (m : μ) (now : Rat) :
    on_event s "INPUT" m now
      = { state := s, outputs := [], logs := [], status := .CONTINUE } := by
  unfold on_event
  rw [if_pos rfl]

/-- `on_event` on a "STOP" event logs receipt and returns `CONTINUE`
with the state unchanged. -/
lemma stop_char (s : OpState α) (m : μ) (now : Rat) :
    on_event s "STOP" m now
      = { state := s, outputs := [], logs := ["received stop"],
          status := .CONTINUE } := by
  unfold on_event
  rw [if_neg (by decide), if_neg (by decide), if_pos rfl]

/-- `on_event` on an unrecognized event type logs it and returns
`CONTINUE` with the state unchanged. -/
lemma other_char (s : OpState α) (ev : String) (m : μ) (now : Rat)
    (h1 : ev ≠ "INPUT") (h2 : ev ≠ "TIMER_TICK") (h4 : ev ≠ "STOP") :
    on_event s ev m now
      = { state := s, outputs := []
          logs := ["received unexpected event: " ++ ev], status := .CONTINUE } := by
  unfold on_event
  rw [if_neg h1, if_neg h2, if_neg h4]

/-- On a tick that arrives before the inter-emission interval has
elapsed, `on_event` does nothing. -/
lemma tick_early_char (s : OpState α) (m : μ) (now : Rat)
    (h : ¬ (1 : Rat) / s.send_frequency ≤ now - s.last_send_time) :
    on_event s "TIMER_TICK" m now
      = { state := s, outputs := [], logs := [], status := .CONTINUE } := by
  unfold on_event
  rw [if_neg (by decide), if_pos rfl, if_neg h]

/-- On a tick that arrives after the interval has elapsed, the resulting
state is the composite of the two send blocks with `last_send_time`
rewritten to the tick's clock reading, and the outputs are the IMU block
followed by the odometry block. -/
lemma tick_late_char (s : OpState α) (m : μ) (now : Rat)
    (h : (1 : Rat) / s.send_frequency ≤ now - s.last_send_time) :
    (on_event s "TIMER_TICK" m now).state
      = { (sendOdom (sendImu s m).1 m).1 with last_send_time := now }
    ∧ (on_event s "TIMER_TICK" m now).outputs
      = (sendImu s m).2 ++ (sendOdom (sendImu s m).1 m).2 := by
  unfold on_event
  rw [if_neg (by decide), if_pos rfl, if_pos h]
  dsimp only
  split <;> exact ⟨rfl, rfl⟩

/-- Full evaluation of the tick branch once the interval has elapsed:
the result is the body of lines 182-209 with the two send blocks
composed. -/
lemma tick_late_eq (s : OpState α) (m : μ) (now : Rat)
    (h : (1 : Rat) / s.send_frequency ≤ now - s.last_send_time) :
    on_event s "TIMER_TICK" m now
      = (let p1 := sendImu s m
         let p2 := sendOdom p1.1 m
         let s3 : OpState α := { p2.1 with last_send_time := now }
         if s3.all_imu.length ≤ s3.imu_index ∧ s3.all_odom.length ≤ s3.odom_index then
           { state := s3, outputs := p1.2 ++ p2.2
             logs := ["Finished sending all IMU and Odom data."], status := .STOP }
         else
           { state := s3, outputs := p1.2 ++ p2.2, logs := [],
             status := .CONTINUE }) := by
  unfold on_event
  rw [if_neg (by decide), if_pos rfl, if_pos h]

/-- If some message on a recognized topic fails to deserialize, the
extraction loop raises (whatever the accumulator already holds). -/
lemma extractLoop_error_of_bad (msgs : List (RawMessage α))
    (hbad : ∃ m ∈ msgs, (m.topic = "/Imu" ∨ m.topic = "/odom") ∧ isDeserError m = true) :
    ∀ acc : ExtractedData α, ∃ e, extractLoop msgs acc = .error e := by
  induction msgs with
  | nil => simp at hbad
  | cons m rest ih =>
    intro acc
    obtain ⟨m', hm', hrec, herr⟩ := hbad
    unfold extractLoop
    by_cases h1 : m.topic = "/Imu"
    · rw [if_pos h1]
      cases hd : m.deser with
      | error e => exact ⟨e, rfl⟩
      | ok b =>
        cases b with
        | imu bi =>
          have hm'rest : m' ∈ rest := by
            rcases List.mem_cons.mp hm' with hEq | hRest
            · exfalso
              subst hEq
              unfold isDeserError at herr
              rw [hd] at herr
              exact Bool.false_ne_true herr
            · exact hRest
          exact ih ⟨m', hm'rest, hrec, herr⟩ _
        | odom bo => exact ⟨"AttributeError", rfl⟩
    · rw [if_neg h1]
      by_cases h2 : m.topic = "/odom"
      · rw [if_pos h2]
        cases hd : m.deser with
        | error e => exact ⟨e, rfl⟩
        | ok b =>
          cases b with
          | odom bo =>
            have hm'rest : m' ∈ rest := by
              rcases List.mem_cons.mp hm' with hEq | hRest
              · exfalso
                subst hEq
                unfold isDeserError at herr
                rw [hd] at herr
                exact Bool.false_ne_true herr
              · exact hRest
            exact ih ⟨m', hm'rest, hrec, herr⟩ _
          | imu bi => exact ⟨"AttributeError", rfl⟩
      · rw [if_neg h2]
        have hm'rest : m' ∈ rest := by
          rcases List.mem_cons.mp hm' with hEq | hRest
          · exfalso
            subst hEq
            rcases hrec with h | h
            · exact h1 h
            · exact h2 h
          · exact hRest
        exact ih ⟨m', hm'rest, hrec, herr⟩ _

/-- On a stream without `/Imu`-topic messages whose `/odom` messages all
deserialize to odometry bodies, the extraction loop succeeds and appends
exactly the spec's odometry sequence. -/
lemma extractLoop_odom_only (msgs : List (RawMessage α))
    (hnoimu : ∀ m ∈ msgs, m.topic ≠ "/Imu")
    (hodom : ∀ m ∈ msgs, m.topic = "/odom" → (odomRecordOf m).isSome = true) :
    ∀ acc : ExtractedData α,
      extractLoop msgs acc
        = .ok { imu := acc.imu, odom := acc.odom ++ specOdomSequence msgs } := by
  induction msgs with
  | nil => intro acc; simp [extractLoop, specOdomSequence]
  | cons m rest ih =>
    intro acc
    have ihrest := ih (fun m' hm' => hnoimu m' (List.mem_cons_of_mem _ hm'))
      (fun m' hm' h => hodom m' (List.mem_cons_of_mem _ hm') h)
    unfold extractLoop
    rw [if_neg (hnoimu m (List.mem_cons_self m rest))]
    by_cases h2 : m.topic = "/odom"
    · rw [if_pos h2]
      have hs := hodom m (List.mem_cons_self m rest) h2
      cases hd : m.deser with
      | error e =>
        exfalso
        unfold odomRecordOf at hs
        rw [hd] at hs
        exact Bool.false_ne_true hs
      | ok b =>
        cases b with
        | imu bi =>
          exfalso
          unfold odomRecordOf at hs
          rw [hd] at hs
          exact Bool.false_ne_true hs
        | odom bo =>
          show extractLoop rest
              { imu := acc.imu, odom := acc.odom ++ [reshapeOdom m.timestamp bo] }
            = Except.ok { imu := acc.imu, odom := acc.odom ++ specOdomSequence (m :: rest) }
          rw [ihrest]
          have hspec : specOdomSequence (m :: rest)
              = reshapeOdom m.timestamp bo :: specOdomSequence rest := by
            simp [specOdomSequence, List.filterMap_cons, h2, odomRecordOf, hd]
          rw [hspec]
          simp
    · rw [if_neg h2]
      rw [ihrest]
      have hspec : specOdomSequence (m :: rest) = specOdomSequence rest := by
        simp [specOdomSequence, List.filterMap_cons, h2]
      rw [hspec]

/-- When every `/odom` message deserializes, the spec's odometry sequence
has one record per `/odom`-topic message. -/
lemma specOdomSequence_length (msgs : List (RawMessage α))
    (hodom : ∀ m ∈ msgs, m.topic = "/odom" → (odomRecordOf m).isSome = true) :
    (specOdomSequence msgs).length
      = (msgs.filter (fun m => m.topic == "/odom")).length := by
  induction msgs with
  | nil => rfl
  | cons m rest ih =>
    have ihrest := ih (fun m' hm' h => hodom m' (List.mem_cons_of_mem _ hm') h)
    rw [List.filter_cons]
    by_cases h2 : m.topic = "/odom"
    · have hs := hodom m (List.mem_cons_self m rest) h2
      obtain ⟨r, hr⟩ := Option.isSome_iff_exists.mp hs
      have hspec : specOdomSequence (m :: rest) = r :: specOdomSequence rest := by
        simp [specOdomSequence, List.filterMap_cons, h2, hr]
      rw [hspec]
      simp [h2, ihrest]
    · have hspec : specOdomSequence (m :: rest) = specOdomSequence rest := by
        simp [specOdomSequence, List.filterMap_cons, h2]
      rw [hspec]
      simp [h2, ihrest]

/-! ## Claim theorems -/

/-- C9: the reported end time equals
`starting_time.nanoseconds_since_epoch + duration.nanoseconds` exactly,
in integer epoch-nanosecond arithmetic: the sum is exact and the
duration is recovered by subtraction with no rounding. -/
theorem end_time_exact (meta : BagMetadata) :
    end_time_ns meta
      = meta.starting_time_nanoseconds_since_epoch + meta.duration_nanoseconds
    ∧ end_time_ns meta - meta.starting_time_nanoseconds_since_epoch
      = meta.duration_nanoseconds := by
  unfold end_time_ns
  omega

/-- C2 (counterexample): on a "STOP" event `on_event` returns
`CONTINUE`, not a stop status, and leaves the state untouched, so a
later tick event still emits — the emission loop does not exit on the
external stop signal. -/
theorem stop_event_continues_cex :
    (on_event pendingState "STOP" () 0).status = DoraStatus.CONTINUE
    ∧ (on_event pendingState "STOP" () 0).state = pendingState
    ∧ (on_event (on_event pendingState "STOP" () 0).state "TIMER_TICK" () 1).outputs
        ≠ [] := by
  decide

/-- C2 (amended): on a "STOP" event, for every operator state,
`on_event` logs receipt ("received stop") and performs no emission on
that event, but returns `CONTINUE` with the state unchanged: the loop is
not exited from inside the operator, and later tick events can still
emit. -/
theorem stop_event_logs_and_continues (α μ : Type) (s : OpState α) (m : μ) (now : Rat) :
    on_event s "STOP" m now
      = { state := s, outputs := [], logs := ["received stop"],
          status := .CONTINUE } :=
  stop_char s m now

/-- C7: a TIMER_TICK whose elapsed time since `last_send_time` is
strictly below `1/send_frequency` emits nothing and changes nothing
(indices and `last_send_time` included); and whenever a tick does emit,
the full interval had elapsed and `last_send_time` is advanced to the
emission instant, so consecutive emissions are at least
`1/send_frequency` apart. -/
theorem early_tick_coalesced (α μ : Type) (s : OpState α) (m : μ) (now : Rat) :
    (now - s.last_send_time < 1 / s.send_frequency →
      on_event s "TIMER_TICK" m now
        = { state := s, outputs := [], logs := [], status := .CONTINUE })
    ∧ ((on_event s "TIMER_TICK" m now).outputs ≠ [] →
        now - s.last_send_time ≥ 1 / s.send_frequency
        ∧ (on_event s "TIMER_TICK" m now).state.last_send_time = now) := by
  constructor
  · intro h
    exact tick_early_char s m now (not_le.mpr h)
  · intro hout
    by_cases hc : (1 : Rat) / s.send_frequency ≤ now - s.last_send_time
    · refine ⟨hc, ?_⟩
      rw [(tick_late_char s m now hc).1]
    · exfalso
      apply hout
      rw [tick_early_char s m now hc]

/-- Witness for C7 at a concrete state and clock: a tick arriving after
0.01 s at frequency 10 Hz is coalesced. -/
theorem early_tick_coalesced_witness :
    ((1 : Rat) / 100 - idleState.last_send_time < 1 / idleState.send_frequency)
    ∧ on_event idleState "TIMER_TICK" () ((1 : Rat) / 100)
      = { state := idleState, outputs := [], logs := [],
          status := DoraStatus.CONTINUE } :=
  ⟨by decide, (early_tick_coalesced Int Unit idleState () ((1 : Rat) / 100)).1 (by decide)⟩

/-- C10: an existing '.db3' path with no directory component (a bare
file name such as "bar.db3") makes `os.path.dirname` yield the empty
string, the subsequent directory check fails, and the locator returns
the "is not a valid ROS2 bag directory" failure instead of parsing. -/
theorem bare_db3_filename_fails (fs : FS) (p : String)
    (hex : fs.pathExists p = true) (hf : fs.isfile p = true)
    (hsuf : strEndsWith p ".db3" = true)
    (hnoslash : p.toList.all (fun c => c != '/') = true)
    (hroot : fs.isdir "" = false) :
    locateBag fs p = .notValidDir "" := by
  unfold locateBag
  rw [if_neg (by simp [hex]), if_pos ⟨hf, hsuf⟩]
  dsimp only
  rw [dirname_of_no_slash p hnoslash, if_neg (by simp [hroot])]

/-- Witness for C10: the bare name "bar.db3" in the working directory. -/
theorem bare_db3_filename_fails_witness :
    fsBare.pathExists "bar.db3" = true
    ∧ locateBag fsBare "bar.db3" = LocateResult.notValidDir "" :=
  ⟨by decide,
   bare_db3_filename_fails fsBare "bar.db3" (by decide) (by decide) (by decide)
     (by decide) (by decide)⟩

/-- C4 (counterexample): for the existing file "bar.db3" (bare name, no
directory component) the locator does not succeed with the parent
directory: it returns the invalid-bag-directory failure, not
`ok (dirname "bar.db3") true`. -/
theorem locator_bare_filename_cex :
    fsBare.pathExists "bar.db3" = true
    ∧ fsBare.isfile "bar.db3" = true
    ∧ strEndsWith "bar.db3" ".db3" = true
    ∧ locateBag fsBare "bar.db3" = LocateResult.notValidDir ""
    ∧ locateBag fsBare "bar.db3" ≠ LocateResult.ok (dirname "bar.db3") true := by
  decide

/-- C4 (amended): case analysis of the locator.  A nonexistent path
fails with not-found; an existing '.db3' file is rewritten to
`os.path.dirname` of the path with a warning, succeeding exactly when
that dirname is a directory (for "foo/bar.db3" this is "foo"; for a bare
file name the dirname is "" and the invalid-bag-directory failure is
returned); an existing directory without '.db3' entries fails with
no-data-file; any other existing path fails with invalid-path. -/
theorem locator_case_analysis (fs : FS) (p : String) :
    (fs.pathExists p = false → locateBag fs p = .notFound)
    ∧ (fs.pathExists p = true → fs.isfile p = true → strEndsWith p ".db3" = true →
        locateBag fs p
          = if fs.isdir (dirname p) = true then .ok (dirname p) true
            else .notValidDir (dirname p))
    ∧ (fs.pathExists p = true → ¬(fs.isfile p = true ∧ strEndsWith p ".db3" = true) →
        fs.isdir p = true →
        ((fs.listdir p).filter (fun f => strEndsWith f ".db3")).isEmpty = true →
        locateBag fs p = .noDataFile p)
    ∧ (fs.pathExists p = true → ¬(fs.isfile p = true ∧ strEndsWith p ".db3" = true) →
        fs.isdir p = false →
        locateBag fs p = .invalidPath p) := by
  refine ⟨?_, ?_, ?_, ?_⟩
  · intro h
    unfold locateBag
    rw [if_pos h]
  · intro h1 h2 h3
    unfold locateBag
    rw [if_neg (by simp [h1]), if_pos ⟨h2, h3⟩]
  · intro h1 hn h4 h5
    unfold locateBag
    rw [if_neg (by simp [h1]), if_neg hn, if_pos h4, if_pos h5]
  · intro h1 hn h4
    unfold locateBag
    rw [if_neg (by simp [h1]), if_neg hn, if_neg (by simp [h4])]

/-- Witness for C4 (amended), file case: "foo/bar.db3" resolves to the
bag directory "foo" with the warning flag set. -/
theorem locator_case_analysis_witness :
    fsFoo.pathExists "foo/bar.db3" = true
    ∧ locateBag fsFoo "foo/bar.db3" = LocateResult.ok "foo" true := by
  refine ⟨by decide, ?_⟩
  have h := (locator_case_analysis fsFoo "foo/bar.db3").2.1 (by decide) (by decide)
    (by decide)
  rw [h]
  decide

/-- C5: when the locator resolves a bag directory and any exception is
raised while opening or reading the bag, `parse_ros2_bag` catches it and
returns the failure indicator `none`; its total `Option` result type
means no exception from the reader block reaches the caller. -/
theorem reader_exception_yields_none (α : Type) (fs : FS) (p : String) (bag : Bag α)
    (dir : String) (w : Bool) (e : String)
    (hloc : locateBag fs p = .ok dir w)
    (herr : parseBody bag = .error e) :
    parse_ros2_bag fs p bag = none := by
  unfold parse_ros2_bag
  rw [hloc]
  dsimp only
  rw [herr]

/-- Witness for C5: a bag directory whose reader raises on opening. -/
theorem reader_exception_yields_none_witness :
    parseBody failingBag = Except.error "database disk image is malformed"
    ∧ parse_ros2_bag fsDir "bag" failingBag = none :=
  ⟨rfl,
   reader_exception_yields_none Int fsDir "bag" failingBag "bag" false
     "database disk image is malformed" (by decide) rfl⟩

/-- C1 (counterexample): with frequency 10, three IMU records and one
odometry record, ticks at 0.1 s intervals yield exactly three
`imu_json` emissions and one `odom_json` emission, but `on_event`
returns STOP already on the 3rd tick (the tick whose emissions exhaust
both indices), not on a 4th emission cycle: the statuses of four ticks
are CONTINUE, CONTINUE, STOP, STOP. -/
theorem emitter_scenario_stops_on_third_tick_cex :
    ((runTicks scenarioState [1/10, 2/10, 3/10, 4/10]).2.1.map (fun o => o.tag)
       = ["imu_json", "odom_json", "imu_json", "imu_json"])
    ∧ (runTicks scenarioState [1/10, 2/10, 3/10, 4/10]).2.2
       = [DoraStatus.CONTINUE, DoraStatus.CONTINUE, DoraStatus.STOP,
          DoraStatus.STOP] := by
  decide

/-- C1 (amended): in the same scenario, three ticks spaced 0.1 s apart
emit, in index order, imu[0] and odom[0] on tick 1, imu[1] on tick 2 and
imu[2] on tick 3 (3 `imu_json` and 1 `odom_json` emissions in total),
and `on_event` returns STOP on the 3rd tick, the successful emission
cycle during which both indices reach the ends of their sequences. -/
theorem emitter_scenario_amended (α : Type) (i0 i1 i2 : ImuRecord α)
    (o0 : OdomRecord α) :
    runTicks
        { all_imu := [i0, i1, i2], all_odom := [o0], imu_index := 0,
          odom_index := 0, last_send_time := 0, send_frequency := 10 }
        [1/10, 2/10, 3/10]
      = ({ all_imu := [i0, i1, i2], all_odom := [o0], imu_index := 3,
           odom_index := 1, last_send_time := 3/10, send_frequency := 10 },
         [{ tag := "imu_json", payload := .imuJson i0, metadata := () },
          { tag := "odom_json", payload := .odomJson o0, metadata := () },
          { tag := "imu_json", payload := .imuJson i1, metadata := () },
          { tag := "imu_json", payload := .imuJson i2, metadata := () }],
         [DoraStatus.CONTINUE, DoraStatus.CONTINUE, DoraStatus.STOP]) := by
  have e1 : on_event (OpState.mk [i0, i1, i2] [o0] 0 0 0 10) "TIMER_TICK" () (1/10)
      = { state := OpState.mk [i0, i1, i2] [o0] 1 1 (1/10) 10,
          outputs := [{ tag := "imu_json", payload := .imuJson i0, metadata := () },
                      { tag := "odom_json", payload := .odomJson o0, metadata := () }],
          logs := [], status := .CONTINUE } := by
    rw [tick_late_eq _ _ _ (by norm_num)]
    simp [sendImu, sendOdom]
  have e2 : on_event (OpState.mk [i0, i1, i2] [o0] 1 1 (1/10) 10) "TIMER_TICK" () (2/10)
      = { state := OpState.mk [i0, i1, i2] [o0] 2 1 (2/10) 10,
          outputs := [{ tag := "imu_json", payload := .imuJson i1, metadata := () }],
          logs := [], status := .CONTINUE } := by
    rw [tick_late_eq _ _ _ (by norm_num)]
    simp [sendImu, sendOdom]
  have e3 : on_event (OpState.mk [i0, i1, i2] [o0] 2 1 (2/10) 10) "TIMER_TICK" () (3/10)
      = { state := OpState.mk [i0, i1, i2] [o0] 3 1 (3/10) 10,
          outputs := [{ tag := "imu_json", payload := .imuJson i2, metadata := () }],
          logs := ["Finished sending all IMU and Odom data."],
          status := .STOP } := by
    rw [tick_late_eq _ _ _ (by norm_num)]
    simp [sendImu, sendOdom]
  simp only [runTicks, e1, e2, e3]
  simp

/-- C3 (counterexample): on a stream whose first `/Imu` message fails to
deserialize, `parse_ros2_bag` does not skip that message and continue:
it returns `none`, not the records reshaped from the remaining healthy
`/odom` message. -/
theorem deser_error_aborts_cex :
    parse_ros2_bag fsDir "bag" corruptBag = none
    ∧ parse_ros2_bag fsDir "bag" corruptBag
        ≠ some { imu := [], odom := [reshapeOdom 2 (odomBody 2)] } := by
  decide

/-- C3 (amended): a CDR deserialization error on any message of a
recognized topic propagates out of the per-message loop — there is no
per-message handler — so the whole scan aborts and `parse_ros2_bag`
returns `none`, discarding the records of all other messages. -/
theorem deser_error_aborts_scan (α : Type) (fs : FS) (p : String) (bag : Bag α)
    (dir : String) (w : Bool) (msgs : List (RawMessage α))
    (hloc : locateBag fs p = .ok dir w)
    (hopen : bag.openResult = .ok msgs)
    (hbad : ∃ m ∈ msgs, (m.topic = "/Imu" ∨ m.topic = "/odom")
      ∧ isDeserError m = true) :
    parse_ros2_bag fs p bag = none := by
  obtain ⟨e, he⟩ := extractLoop_error_of_bad msgs hbad { imu := [], odom := [] }
  have herr : parseBody bag = .error e := by
    unfold parseBody
    rw [hopen]
    exact he
  unfold parse_ros2_bag
  rw [hloc]
  dsimp only
  rw [herr]

/-- Witness for C3 (amended) on the concrete corrupt stream. -/
theorem deser_error_aborts_scan_witness :
    parse_ros2_bag fsDir "bag" corruptBag = none :=
  deser_error_aborts_scan Int fsDir "bag" corruptBag "bag" false corruptMsgs
    (by decide) rfl (by decide)

/-- C8: when the locator succeeds and the bag's stream has no `/Imu`
messages while every `/odom` message deserializes, `parse_ros2_bag`
returns an empty IMU sequence together with the `/odom` records
reshaped in storage order, one per `/odom` message; messages on
unrecognized topics are skipped without error. -/
theorem odom_only_extraction (α : Type) (fs : FS) (p : String) (bag : Bag α)
    (dir : String) (w : Bool) (msgs : List (RawMessage α))
    (hloc : locateBag fs p = .ok dir w)
    (hopen : bag.openResult = .ok msgs)
    (hnoimu : ∀ m ∈ msgs, m.topic ≠ "/Imu")
    (hodom : ∀ m ∈ msgs, m.topic = "/odom" → (odomRecordOf m).isSome = true) :
    parse_ros2_bag fs p bag = some { imu := [], odom := specOdomSequence msgs }
    ∧ (specOdomSequence msgs).length
        = (msgs.filter (fun m => m.topic == "/odom")).length := by
  refine ⟨?_, specOdomSequence_length msgs hodom⟩
  have hok : parseBody bag
      = .ok { imu := [], odom := specOdomSequence msgs } := by
    unfold parseBody
    rw [hopen]
    have h := extractLoop_odom_only msgs hnoimu hodom { imu := [], odom := [] }
    simpa using h
  unfold parse_ros2_bag
  rw [hloc]
  dsimp only
  rw [hok]

/-- Witness for C8 on a concrete stream with two `/odom` messages and
one unrecognized-topic message. -/
theorem odom_only_extraction_witness :
    parse_ros2_bag fsDir "bag" odomBag
      = some { imu := [], odom := specOdomSequence odomMsgs }
    ∧ (specOdomSequence odomMsgs).length
        = (odomMsgs.filter (fun m => m.topic == "/odom")).length :=
  odom_only_extraction Int fsDir "bag" odomBag "bag" false odomMsgs
    (by decide) rfl (by decide) (by decide)

/-- C6: on every event, each of `imu_index` and `odom_index` is
non-decreasing and grows by at most one (so across any event sequence
they are monotonically non-decreasing and never reset), and the outputs
of a single event contain at most one `"imu_json"`-tagged and at most
one `"odom_json"`-tagged `send_output` call. -/
theorem indices_monotone_single_emission (α μ : Type) (s : OpState α)
    (ev : String) (m : μ) (now : Rat) :
    s.imu_index ≤ (on_event s ev m now).state.imu_index
    ∧ (on_event s ev m now).state.imu_index ≤ s.imu_index + 1
    ∧ s.odom_index ≤ (on_event s ev m now).state.odom_index
    ∧ (on_event s ev m now).state.odom_index ≤ s.odom_index + 1
    ∧ ((on_event s ev m now).outputs.filter
        (fun o => o.tag == "imu_json")).length ≤ 1
    ∧ ((on_event s ev m now).outputs.filter
        (fun o => o.tag == "odom_json")).length ≤ 1 := by
  by_cases h1 : ev = "INPUT"
  · subst h1
    rw [input_char]
    simp
  by_cases h2 : ev = "TIMER_TICK"
  · subst h2
    by_cases h3 : (1 : Rat) / s.send_frequency ≤ now - s.last_send_time
    · obtain ⟨hst, hout⟩ := tick_late_char s m now h3
      rw [hst, hout]
      obtain ⟨_, _, hoi, _, hile, hige, hif1, hif0⟩ := sendImu_spec s m
      obtain ⟨_, _, hio, _, hole, hoge, hof1, hof0⟩ :=
        sendOdom_spec (sendImu s m).1 m
      refine ⟨?_, ?_, ?_, ?_, ?_, ?_⟩
      · show s.imu_index ≤ (sendOdom (sendImu s m).1 m).1.imu_index
        rw [hio]
        exact hile
      · show (sendOdom (sendImu s m).1 m).1.imu_index ≤ s.imu_index + 1
        rw [hio]
        exact hige
      · show s.odom_index ≤ (sendOdom (sendImu s m).1 m).1.odom_index
        rw [hoi] at hole
        exact hole
      · show (sendOdom (sendImu s m).1 m).1.odom_index ≤ s.odom_index + 1
        rw [hoi] at hoge
        exact hoge
      · rw [List.filter_append, List.length_append]
        omega
      · rw [List.filter_append, List.length_append]
        omega
    · rw [tick_early_char s m now h3]
      simp
  by_cases h4 : ev = "STOP"
  · subst h4
    rw [stop_char]
    simp
  · rw [other_char s ev m now h1 h2 h4]
    simp

end RosbagToDora
